import Mathlib

/-!
Shallow embedding of `src/server.js` (swipe-leaderboard-backend): a ranked
leaderboard service backed by a player store.  Mongoose/MongoDB store calls
are modelled as pure functions over an insertion-ordered list of records;
MongoDB's stable sorts are modelled with `List.insertionSort` (a stable sort,
hence extensionally the unique stable sort for each total preorder used).
JavaScript request-body values are modelled with an explicit JSON value type
so that truthiness (`!username`, `!level`, `x || y`) and `typeof` checks can
be expressed faithfully.  Timestamps are abstract naturals supplied by the
caller (`new Date()` becomes a `now` parameter).
-/

namespace SwipeLeaderboard

/-- JSON-ish value for the request body `level` field (a JSON number is
modelled as a rational, which is exact for the inputs of interest). -/
inductive JValue where
  | jnull
  | jbool (b : Bool)
  | jnum (q : ℚ)
  | jstr (s : String)
deriving DecidableEq, Repr

/-- JavaScript truthiness of an optional body field (`none` = absent/undefined). -/
def jsTruthy : Option JValue → Bool
  | none => false
  | some .jnull => false
  | some (.jbool b) => b
  | some (.jnum q) => q != 0
  | some (.jstr s) => s != ""

/-- JavaScript truthiness for an optional string value (falsy: absent or empty). -/
def strTruthy : Option String → Bool
  | none => false
  | some s => s != ""

/-- JavaScript `a || b` on optional strings (`a` kept when truthy). -/
def jsOrStr (a b : Option String) : Option String :=
  if strTruthy a then a else b

/-- JavaScript `String.prototype.trim()`: strip whitespace from both ends,
spelled out over the character list. -/
def jsTrim (s : String) : String :=
  ⟨((s.data.dropWhile Char.isWhitespace).reverse.dropWhile Char.isWhitespace).reverse⟩

/-- JavaScript `s.substring(0, n)`: the first `n` characters. -/
def jsSubstringTo (s : String) (n : Nat) : String :=
  ⟨s.data.take n⟩

/-- One document of the `Player` collection (schema lines 21-49 of server.js).
`createdAt` comes from the schema's `timestamps: true` option. -/
structure PlayerRecord where
  username : String
  level : ℚ
  profilePicture : Option String := none
  gamesPlayed : Nat := 1
  lastUpdated : Nat := 0
  createdAt : Nat := 0
deriving DecidableEq, Repr

/-- The store: the `Player` collection in insertion (natural) order. -/
abbrev Store := List PlayerRecord

/-- `Player.findOne({username: u})`: first document matching the username. -/
def findOne (store : Store) (u : String) : Option PlayerRecord :=
  store.find? (fun r => r.username == u)

/-- `Player.updateOne({username: u}, fields)`: update the first matching document
in place (its position in natural order is unchanged). -/
def updateOne (store : Store) (u : String) (f : PlayerRecord → PlayerRecord) : Store :=
  match store with
  | [] => []
  | r :: rest => if r.username == u then f r :: rest else r :: updateOne rest u f

/-- `Player.countDocuments({level: {$gt: q}})`. -/
def countGt (store : Store) (q : ℚ) : Nat :=
  (store.filter (fun r => decide (q < r.level))).length

/-- Sort order of `GET /api/leaderboard`: `.sort({level: -1, lastUpdated: 1})` —
level descending, ties by ascending `lastUpdated`. -/
def lbRel (a b : PlayerRecord) : Prop :=
  b.level < a.level ∨ (a.level = b.level ∧ a.lastUpdated ≤ b.lastUpdated)

instance : DecidableRel lbRel := fun a b => by
  unfold lbRel; infer_instance

/-- Sort order of the `GET /api/stats` top-player query: `.sort({level: -1})` —
level descending only, no tie-break. -/
def statsRel (a b : PlayerRecord) : Prop :=
  b.level ≤ a.level

instance : DecidableRel statsRel := fun a b => by
  unfold statsRel; infer_instance

/-- Effective window limit of `GET /api/leaderboard` (line 85):
`Math.min(parseInt(req.query.limit) || 20, 50)`.  The argument is the result
of `parseInt` (`none` = NaN); `|| 20` replaces every falsy value (NaN and 0)
by the default 20. -/
def effectiveLimit (parsedLimit : Option Int) : Int :=
  min (match parsedLimit with
       | none => 20
       | some n => if n = 0 then 20 else n) 50

/-- Fallback avatar used when a record stores no (or an empty) profile picture. -/
def defaultAvatar : String :=
  "https://images.unsplash.com/photo-1494790108755-2616b612b1c5?w=150&h=150&fit=crop&crop=face"

/-- One entry of the leaderboard response (lines 92-99). -/
structure LBEntry where
  rank : Nat
  username : String
  level : ℚ
  gamesPlayed : Nat
  lastUpdated : Nat
  avatar : String
deriving DecidableEq, Repr

/-- Response of `GET /api/leaderboard` (lines 103-108). -/
structure LBResult where
  success : Bool
  data : List LBEntry
  total : Nat
deriving DecidableEq, Repr

/-- `GET /api/leaderboard` handler (lines 83-108): sort, take the capped
window, assign positional ranks.  `total` is `players.length` as in line 106. -/
def getLeaderboard (store : Store) (parsedLimit : Option Int) : LBResult :=
  let limit := effectiveLimit parsedLimit
  let players := (store.insertionSort lbRel).take limit.toNat
  { success := true
    data := players.enum.map (fun p =>
      { rank := p.1 + 1
        username := p.2.username
        level := p.2.level
        gamesPlayed := if p.2.gamesPlayed = 0 then 1 else p.2.gamesPlayed
        lastUpdated := p.2.lastUpdated
        avatar := match p.2.profilePicture with
                  | some s => if s = "" then defaultAvatar else s
                  | none => defaultAvatar })
    total := players.length }

/-- Request body of `POST /api/leaderboard/update` (line 122). -/
structure SubmitBody where
  username : Option String := none
  level : Option JValue := none
  profilePicture : Option String := none

/-- Response of `POST /api/leaderboard/update`: the union of the JSON shapes
produced by the handler's branches (validation failure, improving update,
non-improving update, new player), with absent fields as `none`. -/
structure SubmitResult where
  status : Nat
  success : Bool
  error : Option String := none
  newRecord : Option Bool := none
  message : Option String := none
  username : Option String := none
  level : Option ℚ := none
  previousBest : Option ℚ := none
  currentBest : Option ℚ := none
  submittedLevel : Option ℚ := none
  newRank : Option Nat := none
  currentRank : Option Nat := none
  rank : Option Nat := none
  isInTop20 : Option Bool := none
  gamesPlayed : Option Nat := none
deriving DecidableEq, Repr

/-- The cleaned username of a submission (line 140):
`username.trim().substring(0, 50)`. -/
def cleanName (body : SubmitBody) : String :=
  jsSubstringTo (jsTrim (body.username.getD "")) 50

/-- `POST /api/leaderboard/update` handler (lines 120-253): validation, then
one of three branches (improving update / non-improving update / new player).
Returns the response together with the store after the call.  `now` stands
for `new Date()`.  `Player.create` (line 215) runs the schema validators
(lines 22-34); the only one the handler's own validation does not already
guarantee is `required: true` on `username`, which Mongoose fails for the
empty string, so a whitespace-only raw username (truthy, but trimming to "")
makes `create` throw: the catch at line 245 answers HTTP 500 with
`error: 'Failed to update score'` and nothing is stored (the caught
exception's `message` text is not modelled).  `updateOne` runs no validators,
so the two update branches have no such path. -/
def submitScore (store : Store) (body : SubmitBody) (now : Nat) : SubmitResult × Store :=
  if !strTruthy body.username || !jsTruthy body.level then
    ({ status := 400, success := false,
       error := some "Username and level are required" }, store)
  else
    match body.level with
    | some (.jnum level) =>
      if decide (level < 1) || decide (level > 1000) then
        ({ status := 400, success := false,
           error := some "Level must be a number between 1 and 1000" }, store)
      else
        let cleanUsername := cleanName body
        match findOne store cleanUsername with
        | some existingPlayer =>
          if decide (existingPlayer.level < level) then
            let store1 := updateOne store cleanUsername (fun r =>
              { r with level := level
                       profilePicture :=
                         jsOrStr body.profilePicture existingPlayer.profilePicture
                       gamesPlayed := existingPlayer.gamesPlayed + 1
                       lastUpdated := now })
            let newRank := countGt store1 level + 1
            ({ status := 200, success := true, newRecord := some true
               message := some (if newRank ≤ 20 then "New record in top 20!"
                                else "New personal best!")
               username := some cleanUsername
               level := some level
               previousBest := some existingPlayer.level
               newRank := some newRank
               isInTop20 := some (decide (newRank ≤ 20))
               gamesPlayed := some (existingPlayer.gamesPlayed + 1) }, store1)
          else
            let store1 := updateOne store cleanUsername (fun r =>
              { r with profilePicture :=
                         jsOrStr body.profilePicture existingPlayer.profilePicture
                       gamesPlayed := existingPlayer.gamesPlayed + 1
                       lastUpdated := now })
            let currentRank := countGt store1 existingPlayer.level + 1
            ({ status := 200, success := true, newRecord := some false
               message := some "Score not high enough for new record"
               username := some cleanUsername
               currentBest := some existingPlayer.level
               submittedLevel := some level
               currentRank := some currentRank
               isInTop20 := some (decide (currentRank ≤ 20))
               gamesPlayed := some (existingPlayer.gamesPlayed + 1) }, store1)
        | none =>
          if cleanUsername = "" then
            ({ status := 500, success := false,
               error := some "Failed to update score" }, store)
          else
            let store1 := store ++ [{ username := cleanUsername
                                      level := level
                                      profilePicture := body.profilePicture
                                      gamesPlayed := 1
                                      lastUpdated := now
                                      createdAt := now }]
            let rank := countGt store1 level + 1
            ({ status := 200, success := true, newRecord := some true
               message := some (if rank ≤ 20 then "Welcome to top 20!"
                                else "Welcome to the leaderboard!")
               username := some cleanUsername
               level := some level
               rank := some rank
               isInTop20 := some (decide (rank ≤ 20))
               gamesPlayed := some 1 }, store1)
    | _ =>
      ({ status := 400, success := false,
         error := some "Level must be a number between 1 and 1000" }, store)

/-- The single rank field present in each successful SubmitScore response shape
(`newRank`, `currentRank`, or `rank` depending on the branch). -/
def SubmitResult.reportedRank (res : SubmitResult) : Option Nat :=
  (res.newRank.orElse fun _ => res.currentRank).orElse fun _ => res.rank

/-- Response of `GET /api/player/:username` (lines 270-295). -/
structure PlayerResult where
  success : Bool
  username : String
  level : ℚ
  rank : Option Nat
  isInTop20 : Bool
  profilePicture : Option String
  gamesPlayed : Nat
  joinedAt : Option Nat := none
  lastPlayed : Option Nat := none
  message : Option String := none
deriving DecidableEq, Repr

/-- `GET /api/player/:username` handler (lines 256-304).  An unknown player is
a success response with zeroed fields, not an error. -/
def getPlayer (store : Store) (username : String) : PlayerResult :=
  let cleanUsername := jsTrim username
  match findOne store cleanUsername with
  | some player =>
    let rank := countGt store player.level + 1
    { success := true
      username := player.username
      level := player.level
      rank := some rank
      isInTop20 := decide (rank ≤ 20)
      profilePicture := player.profilePicture
      gamesPlayed := if player.gamesPlayed = 0 then 1 else player.gamesPlayed
      joinedAt := some player.createdAt
      lastPlayed := some player.lastUpdated }
  | none =>
    { success := true
      username := cleanUsername
      level := 0
      rank := none
      isInTop20 := false
      profilePicture := none
      gamesPlayed := 0
      message := some "Player not found" }

/-- Response of `GET /api/stats` (lines 318-327). -/
structure StatsResult where
  success : Bool
  totalPlayers : Nat
  highestLevel : ℚ
  topPlayer : Option String
  averageLevel : ℚ
  competitorsInTop20 : Nat
deriving DecidableEq, Repr

/-- `GET /api/stats` handler (lines 307-335).  The top player comes from
`Player.findOne().sort({level: -1})` — level descending only, modelled as the
head of the stable sort by `statsRel` over natural order. -/
def getStats (store : Store) : StatsResult :=
  let top := (store.insertionSort statsRel).head?
  { success := true
    totalPlayers := store.length
    highestLevel := match top with | some p => p.level | none => 0
    topPlayer := top.map (fun p => p.username)
    averageLevel :=
      if store.length = 0 then 0
      else (round (((store.map (fun r => r.level)).sum / (store.length : ℚ)) * 10) : ℚ) / 10
    competitorsInTop20 := min store.length 20 }

/-- The cleaned form of a raw username string, as the update handler stores
it: trimmed, then truncated to 50 characters. -/
def cleanOf (u : String) : String :=
  jsSubstringTo (jsTrim u) 50

/-- A well-formed submission body for identity `u` at numeric level `l`,
with no profile picture. -/
def submitBodyOf (u : String) (l : ℚ) : SubmitBody :=
  { username := some u, level := some (.jnum l) }

/-- Sequential application of SubmitScore calls for one identity: fold the
levels through the handler, keeping only the evolving store. -/
def submitSeq (u : String) (levels : List ℚ) (now : Nat) (store : Store) : Store :=
  levels.foldl (fun s l => (submitScore s (submitBodyOf u l) now).2) store

/-- A two-record store used by concrete witnesses. -/
def tinyStore : Store :=
  [{ username := "a", level := 3 }, { username := "b", level := 5 }]

/-- A three-record store exercising the `total` field of the leaderboard. -/
def c1Store : Store :=
  [{ username := "a", level := 3 }, { username := "b", level := 2 },
   { username := "c", level := 1 }]

/-- A submission body with the non-integer numeric level 5/2 = 2.5. -/
def c2Body : SubmitBody :=
  { username := some "alice", level := some (.jnum (mkRat 5 2)) }

/-- Two records tied at the maximum level whose natural order disagrees with
the ascending-`lastUpdated` order. -/
def c5Store : Store :=
  [{ username := "p1", level := 5, lastUpdated := 10 },
   { username := "p2", level := 5, lastUpdated := 3 }]

/-- A one-record store for exercising a non-improving submission. -/
def c6Store : Store :=
  [{ username := "bob", level := 7, profilePicture := none, gamesPlayed := 2,
     lastUpdated := 1, createdAt := 0 }]

/-- A non-improving submission body for the record of `c6Store` (4 < 7),
supplying no new picture. -/
def c6Body : SubmitBody :=
  { username := some "bob", level := some (.jnum 4) }

end SwipeLeaderboard

namespace SwipeLeaderboard

/-! ### Shared helper lemmas about the store model -/

instance : IsTotal PlayerRecord statsRel :=
  ⟨fun a b => le_total b.level a.level⟩

instance : IsTrans PlayerRecord statsRel :=
  ⟨fun _ _ _ h1 h2 => le_trans h2 h1⟩

theorem getLeaderboard_data_length (store : Store) (p : Option Int) :
    (getLeaderboard store p).data.length = min (effectiveLimit p).toNat store.length := by
  simp [getLeaderboard, List.length_take, List.length_insertionSort]

theorem findOne_eq_none_of_forall (store : Store) (c : String)
    (h : ∀ x ∈ store, x.username ≠ c) :
    findOne store c = none := by
  apply List.find?_eq_none.mpr
  intro x hx
  simpa using h x hx

theorem findOne_append_last (S : Store) (r : PlayerRecord) (c : String)
    (hS : ∀ x ∈ S, x.username ≠ c) (hr : r.username = c) :
    findOne (S ++ [r]) c = some r := by
  unfold findOne
  rw [List.find?_append, List.find?_eq_none.mpr (fun x hx => by simpa using hS x hx)]
  simp [hr]

theorem findOne_append_of_none (S T : Store) (c : String)
    (h : findOne S c = none) :
    findOne (S ++ T) c = findOne T c := by
  unfold findOne at h ⊢
  rw [List.find?_append, h]
  rfl

theorem updateOne_append_last (S : Store) (r : PlayerRecord) (c : String)
    (f : PlayerRecord → PlayerRecord)
    (hS : ∀ x ∈ S, x.username ≠ c) (hr : r.username = c) :
    updateOne (S ++ [r]) c f = S ++ [f r] := by
  induction S with
  | nil => simp [updateOne, hr]
  | cons a S ih =>
    have ha : (a.username == c) = false :=
      beq_eq_false_iff_ne.mpr (hS a (List.mem_cons_self a S))
    simp only [List.cons_append, updateOne, ha, Bool.false_eq_true, if_false]
    exact congrArg (a :: ·) (ih (fun x hx => hS x (List.mem_cons_of_mem a hx)))

theorem findOne_updateOne (store : Store) (c : String)
    (f : PlayerRecord → PlayerRecord)
    (hf : ∀ x, (f x).username = x.username) :
    findOne (updateOne store c f) c = (findOne store c).map f := by
  induction store with
  | nil => simp [findOne, updateOne]
  | cons a S ih =>
    by_cases h : (a.username == c) = true
    · have h2 : ((f a).username == c) = true := by rw [hf a]; exact h
      simp [findOne, updateOne, List.find?, h, h2]
    · have h2 : (a.username == c) = false := by simpa using h
      simp only [updateOne, h2, Bool.false_eq_true, if_false]
      simp only [findOne, List.find?, h2] at ih ⊢
      exact ih

theorem jsTruthy_jnum_of_one_le {q : ℚ} (h1 : 1 ≤ q) :
    jsTruthy (some (JValue.jnum q)) = true := by
  have : q ≠ 0 := by
    intro h; rw [h] at h1; exact absurd h1 (by norm_num)
  simp [jsTruthy, this]

theorem range_check_false {q : ℚ} (h1 : 1 ≤ q) (h2 : q ≤ 1000) :
    (decide (q < 1) || decide (q > 1000)) = false := by
  simp [not_lt.mpr h1, not_lt.mpr h2]

theorem submitScore_non_improving_key (store : Store) (body : SubmitBody) (now : Nat)
    (q : ℚ) (rec : PlayerRecord)
    (hu : strTruthy body.username = true)
    (hb : body.level = some (JValue.jnum q))
    (h1 : 1 ≤ q) (h2 : q ≤ 1000)
    (hfind : findOne store (cleanName body) = some rec)
    (hle : q ≤ rec.level) :
    submitScore store body now =
      ({ status := 200, success := true, newRecord := some false,
         message := some "Score not high enough for new record",
         username := some (cleanName body),
         currentBest := some rec.level, submittedLevel := some q,
         currentRank := some (countGt (updateOne store (cleanName body) (fun x => { x with profilePicture := jsOrStr body.profilePicture rec.profilePicture, gamesPlayed := rec.gamesPlayed + 1, lastUpdated := now })) rec.level + 1),
         isInTop20 := some (decide (countGt (updateOne store (cleanName body) (fun x => { x with profilePicture := jsOrStr body.profilePicture rec.profilePicture, gamesPlayed := rec.gamesPlayed + 1, lastUpdated := now })) rec.level + 1 ≤ 20)),
         gamesPlayed := some (rec.gamesPlayed + 1) },
       updateOne store (cleanName body) (fun x => { x with profilePicture := jsOrStr body.profilePicture rec.profilePicture, gamesPlayed := rec.gamesPlayed + 1, lastUpdated := now })) := by
  have hl : jsTruthy (some (JValue.jnum q)) = true := jsTruthy_jnum_of_one_le h1
  have hcnd := range_check_false h1 h2
  have hdec : decide (rec.level < q) = false := decide_eq_false (not_lt.mpr hle)
  simp only [submitScore, hb, hu, hl, hcnd, hfind, hdec]
  simp

theorem submitScore_improving_key (store : Store) (body : SubmitBody) (now : Nat)
    (q : ℚ) (rec : PlayerRecord)
    (hu : strTruthy body.username = true)
    (hb : body.level = some (JValue.jnum q))
    (h1 : 1 ≤ q) (h2 : q ≤ 1000)
    (hfind : findOne store (cleanName body) = some rec)
    (himp : rec.level < q) :
    submitScore store body now =
      ({ status := 200, success := true, newRecord := some true,
         message := some (if countGt (updateOne store (cleanName body) (fun x => { x with level := q, profilePicture := jsOrStr body.profilePicture rec.profilePicture, gamesPlayed := rec.gamesPlayed + 1, lastUpdated := now })) q + 1 ≤ 20 then "New record in top 20!" else "New personal best!"),
         username := some (cleanName body),
         level := some q, previousBest := some rec.level,
         newRank := some (countGt (updateOne store (cleanName body) (fun x => { x with level := q, profilePicture := jsOrStr body.profilePicture rec.profilePicture, gamesPlayed := rec.gamesPlayed + 1, lastUpdated := now })) q + 1),
         isInTop20 := some (decide (countGt (updateOne store (cleanName body) (fun x => { x with level := q, profilePicture := jsOrStr body.profilePicture rec.profilePicture, gamesPlayed := rec.gamesPlayed + 1, lastUpdated := now })) q + 1 ≤ 20)),
         gamesPlayed := some (rec.gamesPlayed + 1) },
       updateOne store (cleanName body) (fun x => { x with level := q, profilePicture := jsOrStr body.profilePicture rec.profilePicture, gamesPlayed := rec.gamesPlayed + 1, lastUpdated := now })) := by
  have hl : jsTruthy (some (JValue.jnum q)) = true := jsTruthy_jnum_of_one_le h1
  have hcnd := range_check_false h1 h2
  have hdec : decide (rec.level < q) = true := decide_eq_true himp
  simp only [submitScore, hb, hu, hl, hcnd, hfind, hdec]
  simp

theorem submitScore_create_invalid_key (store : Store) (body : SubmitBody) (now : Nat)
    (q : ℚ)
    (hu : strTruthy body.username = true)
    (hb : body.level = some (JValue.jnum q))
    (h1 : 1 ≤ q) (h2 : q ≤ 1000)
    (hnone : findOne store (cleanName body) = none)
    (hce : cleanName body = "") :
    submitScore store body now =
      ({ status := 500, success := false,
         error := some "Failed to update score" }, store) := by
  have hl : jsTruthy (some (JValue.jnum q)) = true := jsTruthy_jnum_of_one_le h1
  have hcnd := range_check_false h1 h2
  have hnone2 : findOne store "" = none := hce ▸ hnone
  simp only [submitScore, hb, hu, hl, hcnd, hce, hnone2]
  simp

theorem submitScore_new_key (store : Store) (body : SubmitBody) (now : Nat)
    (q : ℚ)
    (hu : strTruthy body.username = true)
    (hb : body.level = some (JValue.jnum q))
    (h1 : 1 ≤ q) (h2 : q ≤ 1000)
    (hnone : findOne store (cleanName body) = none)
    (hne : cleanName body ≠ "") :
    submitScore store body now =
      ({ status := 200, success := true, newRecord := some true,
         message := some (if countGt (store ++ [{ username := cleanName body, level := q, profilePicture := body.profilePicture, gamesPlayed := 1, lastUpdated := now, createdAt := now }]) q + 1 ≤ 20 then "Welcome to top 20!" else "Welcome to the leaderboard!"),
         username := some (cleanName body),
         level := some q,
         rank := some (countGt (store ++ [{ username := cleanName body, level := q, profilePicture := body.profilePicture, gamesPlayed := 1, lastUpdated := now, createdAt := now }]) q + 1),
         isInTop20 := some (decide (countGt (store ++ [{ username := cleanName body, level := q, profilePicture := body.profilePicture, gamesPlayed := 1, lastUpdated := now, createdAt := now }]) q + 1 ≤ 20)),
         gamesPlayed := some 1 },
       store ++ [{ username := cleanName body, level := q, profilePicture := body.profilePicture, gamesPlayed := 1, lastUpdated := now, createdAt := now }]) := by
  have hl : jsTruthy (some (JValue.jnum q)) = true := jsTruthy_jnum_of_one_le h1
  have hcnd := range_check_false h1 h2
  simp only [submitScore, hb, hu, hl, hcnd, hnone, hne]
  simp

/-! ### C1: leaderboard `total` field -/

/-- C1 (counterexample): with three records in the store and `limit=2`, the
response's `total` is 2 — the size of the capped window — not the store count
3, and it is not strictly greater than the length of `data`. -/
theorem c1_counterexample :
    c1Store.length = 3 ∧
    (getLeaderboard c1Store (some 2)).data.length = 2 ∧
    (getLeaderboard c1Store (some 2)).total = 2 ∧
    (getLeaderboard c1Store (some 2)).total ≠ c1Store.length ∧
    ¬ (getLeaderboard c1Store (some 2)).data.length < (getLeaderboard c1Store (some 2)).total := by
  decide

/-- C1 (amended): for every GetLeaderboard request the `total` field equals the
number of entries of the returned capped window (`players.length`, line 106),
never the store's record count when that is larger. -/
theorem c1_amended_total_is_window_size (store : Store) (parsedLimit : Option Int) :
    (getLeaderboard store parsedLimit).total = (getLeaderboard store parsedLimit).data.length := by
  simp [getLeaderboard]

/-! ### C5: stats top player tie-break -/

/-- C5 (counterexample): two records tied at the maximum level 5, where the
second-inserted record `p2` has the earlier `lastUpdated` (3 < 10).  The
leaderboard ordering (level descending, ties by ascending `lastUpdated`) puts
`p2` first, but GetStats — whose query sorts by level only — reports `p1`,
refuting that `topPlayer` follows the leaderboard's tie-break. -/
theorem c5_counterexample :
    c5Store.length = 2 ∧
    (c5Store.map (fun r => r.level)) = [5, 5] ∧
    (c5Store.map (fun r => r.lastUpdated)) = [10, 3] ∧
    ((getLeaderboard c5Store none).data.head?.map (fun e => e.username)) = some "p2" ∧
    (getStats c5Store).topPlayer = some "p1" ∧
    (getStats c5Store).topPlayer ≠
      ((getLeaderboard c5Store none).data.head?.map (fun e => e.username)) := by
  decide

/-- C5 (amended): for every non-empty store, GetStats reports a record holding
the maximum level of the store (`highestLevel` is its level and `topPlayer` its
username); among several records tied at the maximum level the choice follows
the store's natural (insertion) order, not the ascending-`lastUpdated`
tie-break of the leaderboard. -/
theorem c5_amended_top_player_has_max_level (store : Store) (h : store ≠ []) :
    ∃ r, r ∈ store ∧ (getStats store).topPlayer = some r.username ∧
      (getStats store).highestLevel = r.level ∧
      ∀ x ∈ store, x.level ≤ r.level := by
  obtain ⟨r, t, hrt⟩ : ∃ r t, store.insertionSort statsRel = r :: t := by
    cases hs : store.insertionSort statsRel with
    | nil =>
      exfalso
      have := List.length_insertionSort statsRel store
      rw [hs] at this
      exact h (List.length_eq_zero.mp this.symm)
    | cons r t => exact ⟨r, t, rfl⟩
  have hperm := List.perm_insertionSort statsRel store
  refine ⟨r, ?_, ?_, ?_, ?_⟩
  · exact hperm.subset (hrt ▸ List.mem_cons_self r t)
  · simp [getStats, hrt]
  · simp [getStats, hrt]
  · intro x hx
    have hx2 : x ∈ store.insertionSort statsRel := hperm.symm.subset hx
    rw [hrt] at hx2
    rcases List.mem_cons.mp hx2 with hxr | hxt
    · exact le_of_eq (hxr ▸ rfl)
    · have hsorted := List.sorted_insertionSort statsRel store
      rw [hrt] at hsorted
      exact List.rel_of_sorted_cons hsorted x hxt

/-- C5 (amended, witness): the amended statement applied to the concrete
two-record store. -/
theorem c5_amended_witness :
    c5Store ≠ [] ∧
    (∃ r, r ∈ c5Store ∧ (getStats c5Store).topPlayer = some r.username ∧
      (getStats c5Store).highestLevel = r.level ∧
      ∀ x ∈ c5Store, x.level ≤ r.level) :=
  ⟨by decide, c5_amended_top_player_has_max_level c5Store (by decide)⟩

/-! ### C2: submission validation -/

/-- C2 (counterexample): the level 5/2 = 2.5 is a number in [1,1000] but not
an integer (its denominator is 2), so the claim requires a 400 rejection with
no store mutation; the handler checks only `typeof level !== 'number'` and the
range, so it accepts the submission (HTTP 200, success) and creates a
record. -/
theorem c2_counterexample :
    (mkRat 5 2).den ≠ 1 ∧
    1 ≤ mkRat 5 2 ∧ mkRat 5 2 ≤ 1000 ∧
    (submitScore [] c2Body 0).1.status = 200 ∧
    (submitScore [] c2Body 0).1.success = true ∧
    (submitScore [] c2Body 0).2 ≠ [] := by
  decide

/-- C2 (amended): validation rejects (HTTP 400 with `success:false` and no
store mutation) exactly when the username is falsy (absent or empty), the
level is falsy (absent, null, `false`, 0 or the empty string), the level is
not a JSON number, or the level is a number outside [1,1000]; integrality is
not checked, so a non-integer number in range such as 2.5 is accepted. -/
theorem c2_amended_validation (store : Store) (body : SubmitBody) (now : Nat) :
    ((submitScore store body now).1.status = 400 ↔
      ¬ (strTruthy body.username = true ∧ jsTruthy body.level = true ∧
         ∃ q : ℚ, body.level = some (.jnum q) ∧ 1 ≤ q ∧ q ≤ 1000)) ∧
    ((submitScore store body now).1.status = 400 →
      (submitScore store body now).1.success = false ∧
      (submitScore store body now).2 = store) := by
  by_cases hu : strTruthy body.username = true
  · by_cases hl : jsTruthy body.level = true
    · cases hb : body.level with
      | none => rw [hb] at hl; simp [jsTruthy] at hl
      | some v =>
        cases v with
        | jnull => rw [hb] at hl; simp [jsTruthy] at hl
        | jbool b =>
          have hl' := hl
          rw [hb] at hl'
          simp only [jsTruthy] at hl'
          simp [submitScore, hu, hb, jsTruthy, hl']
        | jstr s =>
          have hl' := hl
          rw [hb] at hl'
          simp only [jsTruthy] at hl'
          simp [submitScore, hu, hb, jsTruthy, hl']
        | jnum q =>
          have hl' := hl
          rw [hb] at hl'
          simp only [jsTruthy, bne_iff_ne, ne_eq] at hl'
          by_cases hr : q < 1 ∨ 1000 < q
          · have hc : (decide (q < 1) || decide (q > 1000)) = true := by
              rcases hr with h | h <;> simp [h]
            have h400 : (submitScore store body now).1.status = 400 ∧
                (submitScore store body now).1.success = false ∧
                (submitScore store body now).2 = store := by
              simp [submitScore, hu, hb, jsTruthy, hl', hc]
            refine ⟨?_, fun _ => ⟨h400.2.1, h400.2.2⟩⟩
            rw [h400.1]
            refine iff_of_true rfl ?_
            rintro ⟨-, -, q', hq', h1, h2⟩
            simp only [Option.some.injEq, JValue.jnum.injEq] at hq'
            subst hq'
            rcases hr with h | h
            · exact absurd h1 (not_le.mpr h)
            · exact absurd h2 (not_le.mpr h)
          · push_neg at hr
            have hc : (decide (q < 1) || decide (q > 1000)) = false := by
              simp only [Bool.or_eq_false_iff, decide_eq_false_iff_not, not_lt, gt_iff_lt]
              exact ⟨hr.1, hr.2⟩
            have hne400 : ¬ (submitScore store body now).1.status = 400 := by
              cases hf : findOne store (cleanName body) with
              | none =>
                by_cases hce : cleanName body = ""
                · have hf2 : findOne store "" = none := hce ▸ hf
                  simp [submitScore, hu, hb, jsTruthy, hl', hc, hf2, hce]
                · simp [submitScore, hu, hb, jsTruthy, hl', hc, hf, hce]
              | some existing =>
                by_cases himp : existing.level < q
                · simp [submitScore, hu, hb, jsTruthy, hl', hc, hf, himp]
                · simp [submitScore, hu, hb, jsTruthy, hl', hc, hf, himp]
            constructor
            · refine iff_of_false hne400 ?_
              refine not_not_intro ⟨hu, ?_, q, rfl, hr.1, hr.2⟩
              simp [jsTruthy, hl']
            · intro habs
              exact absurd habs hne400
    · constructor
      · simp [submitScore, hu, hl]
      · intro _
        simp [submitScore, hu, hl]
  · constructor
    · simp [submitScore, hu]
    · intro _
      simp [submitScore, hu]

/-- C2 (amended, witness): the empty body is rejected with a 400, no success,
and an unchanged store. -/
theorem c2_amended_validation_witness :
    (submitScore [] ({} : SubmitBody) 0).1.status = 400 ∧
    ((submitScore [] ({} : SubmitBody) 0).1.success = false ∧
     (submitScore [] ({} : SubmitBody) 0).2 = []) :=
  ⟨by decide, (c2_amended_validation [] {} 0).2 (by decide)⟩

/-! ### C3: monotonic level invariant -/

theorem submitScore_store_step (S : Store) (r : PlayerRecord) (u : String) (l : ℚ)
    (now : Nat)
    (hu : strTruthy (some u) = true)
    (h1 : 1 ≤ l) (h2 : l ≤ 1000)
    (hc : r.username = cleanOf u)
    (hS : ∀ x ∈ S, x.username ≠ cleanOf u) :
    ∃ r', (submitScore (S ++ [r]) (submitBodyOf u l) now).2 = S ++ [r'] ∧
      r'.username = r.username ∧ r'.level = max r.level l ∧
      r'.gamesPlayed = r.gamesPlayed + 1 := by
  have hq0 : l ≠ 0 := by
    intro h; rw [h] at h1; exact absurd h1 (by norm_num)
  have hbu : (submitBodyOf u l).username = some u := rfl
  have hbl : (submitBodyOf u l).level = some (JValue.jnum l) := rfl
  have hl : jsTruthy (some (JValue.jnum l)) = true := by simp [jsTruthy, hq0]
  have hcnd : (decide (l < 1) || decide (l > 1000)) = false := by
    simp [not_lt.mpr h1, not_lt.mpr h2]
  have hclean : cleanName (submitBodyOf u l) = cleanOf u := rfl
  have hfind : findOne (S ++ [r]) (cleanOf u) = some r :=
    findOne_append_last S r (cleanOf u) hS hc
  by_cases himp : r.level < l
  · have hdec : decide (r.level < l) = true := decide_eq_true himp
    refine ⟨{ r with level := l, gamesPlayed := r.gamesPlayed + 1, lastUpdated := now }, ?_, rfl, (max_eq_right (le_of_lt himp)).symm, rfl⟩
    have key : (submitScore (S ++ [r]) (submitBodyOf u l) now).2 =
        updateOne (S ++ [r]) (cleanOf u) (fun x => { x with level := l, profilePicture := jsOrStr (submitBodyOf u l).profilePicture r.profilePicture, gamesPlayed := r.gamesPlayed + 1, lastUpdated := now }) := by
      simp only [submitScore, hbu, hbl, hu, hl, hcnd, hclean, hfind, hdec]
      simp
    rw [key, updateOne_append_last S r (cleanOf u) _ hS hc]
    rfl
  · have hdec : decide (r.level < l) = false := decide_eq_false himp
    refine ⟨{ r with gamesPlayed := r.gamesPlayed + 1, lastUpdated := now }, ?_, rfl, (max_eq_left (not_lt.mp himp)).symm, rfl⟩
    have key : (submitScore (S ++ [r]) (submitBodyOf u l) now).2 =
        updateOne (S ++ [r]) (cleanOf u) (fun x => { x with profilePicture := jsOrStr (submitBodyOf u l).profilePicture r.profilePicture, gamesPlayed := r.gamesPlayed + 1, lastUpdated := now }) := by
      simp only [submitScore, hbu, hbl, hu, hl, hcnd, hclean, hfind, hdec]
      simp
    rw [key, updateOne_append_last S r (cleanOf u) _ hS hc]
    rfl

theorem submitSeq_store (u : String) (now : Nat)
    (hu : strTruthy (some u) = true)
    (levels : List ℚ) (hlv : ∀ l ∈ levels, 1 ≤ l ∧ l ≤ 1000)
    (S : Store) (r : PlayerRecord)
    (hc : r.username = cleanOf u)
    (hS : ∀ x ∈ S, x.username ≠ cleanOf u) :
    ∃ r', submitSeq u levels now (S ++ [r]) = S ++ [r'] ∧
      r'.username = r.username ∧ r'.level = levels.foldl max r.level := by
  induction levels generalizing r with
  | nil => exact ⟨r, rfl, rfl, rfl⟩
  | cons l ls ih =>
    obtain ⟨r1, hst, hun1, hlv1, -⟩ :=
      submitScore_store_step S r u l now hu (hlv l (List.mem_cons_self l ls)).1
        (hlv l (List.mem_cons_self l ls)).2 hc hS
    obtain ⟨r', hst', hun', hlv'⟩ :=
      ih (fun x hx => hlv x (List.mem_cons_of_mem l hx)) r1 (hun1.trans hc)
    refine ⟨r', ?_, hun'.trans hun1, ?_⟩
    · show submitSeq u ls now ((submitScore (S ++ [r]) (submitBodyOf u l) now).2) = S ++ [r']
      rw [hst]
      exact hst'
    · rw [hlv', hlv1]
      rfl

/-- C3: starting from a store holding no record for the cleaned identity —
which must be non-empty, or the first `Player.create` would fail the schema's
required-username validator and store nothing — any non-empty sequence of
accepted submissions for that identity leaves the stored `level` equal to the
maximum of all submitted levels (so in particular an update never lowers it);
since the statement holds for every sequence, it holds after each call of a
longer sequence. -/
theorem c3_level_is_max_of_submissions (u : String) (store : Store) (now : Nat)
    (hu : strTruthy (some u) = true)
    (hne : cleanOf u ≠ "")
    (hstore : ∀ x ∈ store, x.username ≠ cleanOf u)
    (l0 : ℚ) (h01 : 1 ≤ l0) (h02 : l0 ≤ 1000)
    (levels : List ℚ) (hlv : ∀ l ∈ levels, 1 ≤ l ∧ l ≤ 1000) :
    ∃ r, findOne (submitSeq u (l0 :: levels) now store) (cleanOf u) = some r ∧
      r.level = levels.foldl max l0 := by
  have hq0 : l0 ≠ 0 := by
    intro h; rw [h] at h01; exact absurd h01 (by norm_num)
  have hbu : (submitBodyOf u l0).username = some u := rfl
  have hbl : (submitBodyOf u l0).level = some (JValue.jnum l0) := rfl
  have hbp : (submitBodyOf u l0).profilePicture = none := rfl
  have hl : jsTruthy (some (JValue.jnum l0)) = true := by simp [jsTruthy, hq0]
  have hcnd : (decide (l0 < 1) || decide (l0 > 1000)) = false := by
    simp [not_lt.mpr h01, not_lt.mpr h02]
  have hclean : cleanName (submitBodyOf u l0) = cleanOf u := rfl
  have hnone : findOne store (cleanOf u) = none :=
    findOne_eq_none_of_forall store _ hstore
  have hfirst : (submitScore store (submitBodyOf u l0) now).2 =
      store ++ [{ username := cleanOf u, level := l0, profilePicture := none, gamesPlayed := 1, lastUpdated := now, createdAt := now }] := by
    simp only [submitScore, hbu, hbl, hbp, hu, hl, hcnd, hclean, hnone, hne]
    simp
  obtain ⟨r', hst', hun', hlv'⟩ :=
    submitSeq_store u now hu levels hlv store
      { username := cleanOf u, level := l0, profilePicture := none,
        gamesPlayed := 1, lastUpdated := now, createdAt := now } rfl hstore
  refine ⟨r', ?_, hlv'⟩
  show findOne (submitSeq u levels now ((submitScore store (submitBodyOf u l0) now).2))
      (cleanOf u) = some r'
  rw [hfirst, hst']
  exact findOne_append_last store r' (cleanOf u) hstore (hun'.trans rfl)

/-- C3 (witness): submitting 5, then 3, then 9 for a fresh identity leaves the
stored level at max 5 3 9 = 9. -/
theorem c3_level_is_max_of_submissions_witness :
    strTruthy (some "alice") = true ∧
    cleanOf "alice" ≠ "" ∧
    (∀ x ∈ ([] : Store), x.username ≠ cleanOf "alice") ∧
    ((1 : ℚ) ≤ 5 ∧ (5 : ℚ) ≤ 1000) ∧
    (∀ l ∈ [(3 : ℚ), 9], 1 ≤ l ∧ l ≤ 1000) ∧
    (∃ r, findOne (submitSeq "alice" (5 :: [3, 9]) 0 []) (cleanOf "alice") = some r ∧
      r.level = [(3 : ℚ), 9].foldl max 5) :=
  ⟨by decide, by decide, by simp, ⟨by norm_num, by norm_num⟩, by decide,
   c3_level_is_max_of_submissions "alice" [] 0 (by decide) (by decide) (by simp) 5
     (by norm_num) (by norm_num) [3, 9] (by decide)⟩

/-! ### C7: unknown player lookup -/

/-- C7: looking up an identity with no stored record succeeds (success
envelope) and reports level 0, null rank, top-tier flag false and play count
0. -/
theorem c7_unknown_player (store : Store) (u : String)
    (h : findOne store (jsTrim u) = none) :
    (getPlayer store u).success = true ∧
    (getPlayer store u).level = 0 ∧
    (getPlayer store u).rank = none ∧
    (getPlayer store u).isInTop20 = false ∧
    (getPlayer store u).gamesPlayed = 0 := by
  simp [getPlayer, h]

/-- C7 (witness): the unknown-player lookup at the concrete store. -/
theorem c7_unknown_player_witness :
    findOne tinyStore (jsTrim "ghost") = none ∧
    ((getPlayer tinyStore "ghost").success = true ∧
     (getPlayer tinyStore "ghost").level = 0 ∧
     (getPlayer tinyStore "ghost").rank = none ∧
     (getPlayer tinyStore "ghost").isInTop20 = false ∧
     (getPlayer tinyStore "ghost").gamesPlayed = 0) :=
  ⟨by decide, c7_unknown_player tinyStore "ghost" (by decide)⟩

/-! ### C4: rank derivation -/

/-- C4: the rank reported by GetPlayer and by every successful (HTTP 200)
SubmitScore response equals 1 plus the number of records in the (post-update)
store whose level is strictly greater than the record's (post-update) stored
level; two stored players with equal level receive the same rank; and the
top-tier flag holds exactly when that rank is at most 20.  (A submission whose
`Player.create` fails the schema's required-username validator answers 500 and
reports no rank, so it is excluded by the status hypothesis.) -/
theorem c4_rank_is_one_plus_greater_count :
    (∀ (store : Store) (u : String) (r : PlayerRecord),
      findOne store (jsTrim u) = some r →
      (getPlayer store u).rank =
        some ((store.filter (fun x => decide (r.level < x.level))).length + 1) ∧
      ((getPlayer store u).isInTop20 = true ↔
        (store.filter (fun x => decide (r.level < x.level))).length + 1 ≤ 20)) ∧
    (∀ (store : Store) (body : SubmitBody) (now : Nat) (q : ℚ),
      strTruthy body.username = true →
      body.level = some (JValue.jnum q) → 1 ≤ q → q ≤ 1000 →
      (submitScore store body now).1.status = 200 →
      ∃ rec, findOne (submitScore store body now).2 (cleanName body) = some rec ∧
        (submitScore store body now).1.reportedRank =
          some (((submitScore store body now).2.filter
            (fun x => decide (rec.level < x.level))).length + 1) ∧
        (submitScore store body now).1.isInTop20 =
          some (decide (((submitScore store body now).2.filter
            (fun x => decide (rec.level < x.level))).length + 1 ≤ 20))) ∧
    (∀ (store : Store) (u1 u2 : String) (r1 r2 : PlayerRecord),
      findOne store (jsTrim u1) = some r1 → findOne store (jsTrim u2) = some r2 →
      r1.level = r2.level →
      (getPlayer store u1).rank = (getPlayer store u2).rank) := by
  refine ⟨?_, ?_, ?_⟩
  · intro store u r hfind
    constructor
    · simp [getPlayer, hfind, countGt]
    · simp [getPlayer, hfind, countGt]
  · intro store body now q hu hb h1 h2 hstatus
    cases hfind : findOne store (cleanName body) with
    | none =>
      by_cases hce : cleanName body = ""
      · rw [submitScore_create_invalid_key store body now q hu hb h1 h2 hfind hce] at hstatus
        simp at hstatus
      have key := submitScore_new_key store body now q hu hb h1 h2 hfind hce
      refine ⟨{ username := cleanName body, level := q, profilePicture := body.profilePicture, gamesPlayed := 1, lastUpdated := now, createdAt := now }, ?_, ?_, ?_⟩
      · rw [key]
        refine (findOne_append_of_none store _ (cleanName body) hfind).trans ?_
        simp [findOne, List.find?]
      · rw [key]
        rfl
      · rw [key]
        rfl
    | some rec =>
      by_cases himp : rec.level < q
      · have key := submitScore_improving_key store body now q rec hu hb h1 h2 hfind himp
        refine ⟨{ rec with level := q, profilePicture := jsOrStr body.profilePicture rec.profilePicture, gamesPlayed := rec.gamesPlayed + 1, lastUpdated := now }, ?_, ?_, ?_⟩
        · rw [key]
          rw [findOne_updateOne]
          · rw [hfind]
            rfl
          · intro x
            rfl
        · rw [key]
          rfl
        · rw [key]
          rfl
      · have hle := not_lt.mp himp
        have key := submitScore_non_improving_key store body now q rec hu hb h1 h2 hfind hle
        refine ⟨{ rec with profilePicture := jsOrStr body.profilePicture rec.profilePicture, gamesPlayed := rec.gamesPlayed + 1, lastUpdated := now }, ?_, ?_, ?_⟩
        · rw [key]
          rw [findOne_updateOne]
          · rw [hfind]
            rfl
          · intro x
            rfl
        · rw [key]
          rfl
        · rw [key]
          rfl
  · intro store u1 u2 r1 r2 hf1 hf2 hlev
    simp [getPlayer, hf1, hf2, countGt, hlev]

/-- C4 (witness): the three parts applied at concrete stores — a lookup in the
two-record store, an accepted improving submission, and a rank tie. -/
theorem c4_rank_is_one_plus_greater_count_witness :
    (findOne tinyStore (jsTrim "a") = some { username := "a", level := 3 } ∧
      ((getPlayer tinyStore "a").rank =
        some ((tinyStore.filter (fun x => decide ((3 : ℚ) < x.level))).length + 1) ∧
       ((getPlayer tinyStore "a").isInTop20 = true ↔
        (tinyStore.filter (fun x => decide ((3 : ℚ) < x.level))).length + 1 ≤ 20))) ∧
    ((submitScore tinyStore (submitBodyOf "a" 4) 9).1.status = 200 ∧
     ∃ rec, findOne (submitScore tinyStore (submitBodyOf "a" 4) 9).2
        (cleanName (submitBodyOf "a" 4)) = some rec ∧
      (submitScore tinyStore (submitBodyOf "a" 4) 9).1.reportedRank =
        some (((submitScore tinyStore (submitBodyOf "a" 4) 9).2.filter
          (fun x => decide (rec.level < x.level))).length + 1) ∧
      (submitScore tinyStore (submitBodyOf "a" 4) 9).1.isInTop20 =
        some (decide (((submitScore tinyStore (submitBodyOf "a" 4) 9).2.filter
          (fun x => decide (rec.level < x.level))).length + 1 ≤ 20))) ∧
    (findOne c5Store (jsTrim "p1") = some { username := "p1", level := 5, lastUpdated := 10 } ∧
     findOne c5Store (jsTrim "p2") = some { username := "p2", level := 5, lastUpdated := 3 } ∧
     (getPlayer c5Store "p1").rank = (getPlayer c5Store "p2").rank) :=
  ⟨⟨by decide, c4_rank_is_one_plus_greater_count.1 tinyStore "a"
      { username := "a", level := 3 } (by decide)⟩,
   ⟨by decide, c4_rank_is_one_plus_greater_count.2.1 tinyStore (submitBodyOf "a" 4) 9 4
     (by decide) rfl (by norm_num) (by norm_num) (by decide)⟩,
   by decide, by decide,
   c4_rank_is_one_plus_greater_count.2.2 c5Store "p1" "p2"
     { username := "p1", level := 5, lastUpdated := 10 }
     { username := "p2", level := 5, lastUpdated := 3 } (by decide) (by decide) rfl⟩

/-! ### C6: non-improving submission -/

/-- C6: for an existing identity, a submission with level at most the stored
level leaves `level` unchanged, replaces the display image only when the
submission supplies a non-empty one, increments `playCount` by exactly 1,
refreshes `lastUpdated`, and reports `newRecord=false` with `currentBest` the
stored level and `submittedLevel` the submitted value; hence submitting the
same non-improving level twice with no new image changes neither `level` nor
`displayImage` while `playCount` rises by 2. -/
theorem c6_non_improving (store : Store) (body : SubmitBody) (now now2 : Nat) (q : ℚ)
    (rec : PlayerRecord)
    (hu : strTruthy body.username = true)
    (hb : body.level = some (JValue.jnum q))
    (h1 : 1 ≤ q) (h2 : q ≤ 1000)
    (hfind : findOne store (cleanName body) = some rec)
    (hle : q ≤ rec.level) :
    (submitScore store body now).1.newRecord = some false ∧
    (submitScore store body now).1.currentBest = some rec.level ∧
    (submitScore store body now).1.submittedLevel = some q ∧
    (submitScore store body now).1.gamesPlayed = some (rec.gamesPlayed + 1) ∧
    findOne (submitScore store body now).2 (cleanName body) =
      some { rec with profilePicture := if strTruthy body.profilePicture = true then body.profilePicture else rec.profilePicture, gamesPlayed := rec.gamesPlayed + 1, lastUpdated := now } ∧
    (strTruthy body.profilePicture = false →
      findOne (submitScore (submitScore store body now).2 body now2).2 (cleanName body) =
        some { rec with gamesPlayed := rec.gamesPlayed + 2, lastUpdated := now2 }) := by
  have key1 := submitScore_non_improving_key store body now q rec hu hb h1 h2 hfind hle
  have hf1 : findOne (submitScore store body now).2 (cleanName body) =
      some { rec with profilePicture := jsOrStr body.profilePicture rec.profilePicture, gamesPlayed := rec.gamesPlayed + 1, lastUpdated := now } := by
    rw [key1, findOne_updateOne]
    · rw [hfind]
      rfl
    · intro x
      rfl
  refine ⟨by rw [key1], by rw [key1], by rw [key1], by rw [key1], ?_, ?_⟩
  · rw [hf1]
    rfl
  · intro hp
    have hpp : jsOrStr body.profilePicture rec.profilePicture = rec.profilePicture := by
      simp [jsOrStr, hp]
    have key2 := submitScore_non_improving_key (submitScore store body now).2 body now2 q
      { rec with profilePicture := jsOrStr body.profilePicture rec.profilePicture, gamesPlayed := rec.gamesPlayed + 1, lastUpdated := now }
      hu hb h1 h2 hf1 hle
    rw [key2, findOne_updateOne]
    · rw [hf1]
      simp [hpp]
    · intro x
      rfl

/-- C6 (witness): the double-submission consequence at a concrete store —
submitting level 4 twice against a stored level of 7 leaves the level and the
absent picture unchanged and adds two plays. -/
theorem c6_non_improving_witness :
    (strTruthy c6Body.username = true ∧
     c6Body.level = some (JValue.jnum 4) ∧
     ((1 : ℚ) ≤ 4 ∧ (4 : ℚ) ≤ 1000) ∧
     findOne c6Store (cleanName c6Body) =
       some { username := "bob", level := 7, profilePicture := none, gamesPlayed := 2, lastUpdated := 1, createdAt := 0 } ∧
     (4 : ℚ) ≤ 7 ∧ strTruthy c6Body.profilePicture = false) ∧
    findOne (submitScore (submitScore c6Store c6Body 5).2 c6Body 6).2 (cleanName c6Body) =
      some { username := "bob", level := 7, profilePicture := none, gamesPlayed := 4, lastUpdated := 6, createdAt := 0 } :=
  ⟨⟨by decide, rfl, ⟨by norm_num, by norm_num⟩, by decide, by norm_num, by decide⟩,
   (c6_non_improving c6Store c6Body 5 6 4
      { username := "bob", level := 7, profilePicture := none, gamesPlayed := 2, lastUpdated := 1, createdAt := 0 }
      (by decide) rfl (by norm_num) (by norm_num) (by decide) (by norm_num)).2.2.2.2.2
    (by decide)⟩

/-! ### C8: window cap -/

/-- C8: the returned window is capped by `min(limit, 50)` for a positive
supplied limit and by the default 20 when no limit is supplied; in particular
`limit=1000` yields at most 50 entries and `limit=5` at most 5. -/
theorem c8_window_cap :
    (∀ (store : Store) (n : Int), 0 < n →
      ((getLeaderboard store (some n)).data.length : Int) ≤ min n 50) ∧
    (∀ store : Store, (getLeaderboard store none).data.length ≤ 20) ∧
    (∀ store : Store, (getLeaderboard store (some 1000)).data.length ≤ 50) ∧
    (∀ store : Store, (getLeaderboard store (some 5)).data.length ≤ 5) := by
  refine ⟨?_, ?_, ?_, ?_⟩
  · intro store n hn
    have h := getLeaderboard_data_length store (some n)
    have e : effectiveLimit (some n) = min n 50 := by
      simp only [effectiveLimit]
      rw [if_neg (by omega : ¬ n = 0)]
    rw [e] at h
    omega
  · intro store
    have h := getLeaderboard_data_length store none
    have e : effectiveLimit none = 20 := by decide
    rw [e] at h
    omega
  · intro store
    have h := getLeaderboard_data_length store (some 1000)
    have e : effectiveLimit (some 1000) = 50 := by decide
    rw [e] at h
    omega
  · intro store
    have h := getLeaderboard_data_length store (some 5)
    have e : effectiveLimit (some 5) = 5 := by decide
    rw [e] at h
    omega

/-- C8 (witness): the positive-limit cap applied at a concrete store and
limit. -/
theorem c8_window_cap_witness :
    (0 : Int) < 3 ∧ ((getLeaderboard tinyStore (some 3)).data.length : Int) ≤ min 3 50 :=
  ⟨by decide, c8_window_cap.1 tinyStore 3 (by decide)⟩

/-! ### C10: limit=0 falls back to the default -/

/-- C10: a limit query parameter parsing to 0 is falsy in JavaScript, so
`parseInt(..) || 20` replaces it by the default: the request behaves exactly
like one with no limit, returning up to 20 entries rather than an empty
list. -/
theorem c10_zero_limit_uses_default :
    effectiveLimit (some 0) = 20 ∧
    effectiveLimit none = 20 ∧
    (∀ store : Store, getLeaderboard store (some 0) = getLeaderboard store none) ∧
    (∀ store : Store, (getLeaderboard store (some 0)).data.length = min 20 store.length) := by
  refine ⟨by decide, by decide, ?_, ?_⟩
  · intro store
    rfl
  · intro store
    have h := getLeaderboard_data_length store (some 0)
    have e : effectiveLimit (some 0) = 20 := by decide
    rw [e] at h
    omega

end SwipeLeaderboard
